import Mathlib

/-!
Verification of the pose-nudge Monitoring and Alert Controller.

The React component WebcamCapture.tsx drives the monitoring loop: a guarded
asynchronous captureAndAnalyze callback, a periodic tick, start/stop handlers,
and a posture-log sink.  We embed the component state and the atomic steps of
that loop (the synchronous entry portion of captureAndAnalyze up to the await,
and the continuation that runs when the backend analysis resolves) as pure
functions on an explicit state record.  Parts of the core that live in the
Rust backend (detection-history ring, alert dispatcher, interval controller,
settings validation) are modelled from the specification where noted.
-/

/-- The PostureAnalysis record parsed from the backend response
(interface PostureAnalysis in WebcamCapture.tsx).  The optional confidence
field is a float used only for display and is omitted. -/
structure PostureAnalysis where
  turtle_neck : Bool
  shoulder_misalignment : Bool
  posture_score : Nat
  recommendations : List String
  skip : Bool
deriving DecidableEq, Repr

/-- is_bad as defined in the data model: turtle neck or shoulder misalignment. -/
def PostureAnalysis.isBad (r : PostureAnalysis) : Bool :=
  r.turtle_neck || r.shoulder_misalignment

/-- One row of the posture_log table as inserted by captureAndAnalyze:
score, is_turtle_neck (1 or 0), is_shoulder_misaligned (1 or 0), timestamp. -/
structure LogEntry where
  score : Nat
  is_turtle_neck : Nat
  is_shoulder_misaligned : Nat
  timestamp : Nat
deriving DecidableEq, Repr

/-- The row built from a parsed result, mirroring the INSERT INTO posture_log
statement in captureAndAnalyze. -/
def logEntryOf (r : PostureAnalysis) (now : Nat) : LogEntry :=
  ⟨r.posture_score, if r.turtle_neck then 1 else 0,
   if r.shoulder_misalignment then 1 else 0, now⟩

/-- Error keys set via setError in WebcamCapture.tsx (i18n keys). -/
inductive ErrKey where
  | captureError
  | analysisError
deriving DecidableEq, Repr

/-- The state of the WebcamCapture component that the monitoring loop reads
and writes: the React state flags, the published UI result (setAnalysisResult),
the error message, the posture_log sink, and a count of analyze_pose_data
invocations currently awaited (pending). -/
structure ComponentState where
  isMonitoring : Bool
  isModelInitialized : Bool
  webcamPresent : Bool
  isAnalyzing : Bool
  pending : Nat
  analysisResult : Option PostureAnalysis
  errorMsg : Option ErrKey
  postureLog : List LogEntry
deriving DecidableEq, Repr

/-- The initial component state: all useState initializers in
WebcamCapture.tsx (false / null / empty). -/
def initState : ComponentState :=
  ⟨false, false, false, false, 0, none, none, []⟩

/-- The synchronous entry portion of captureAndAnalyze, up to the await of
analyze_pose_data: the guard returns unchanged when isAnalyzing is already
true, the webcam ref is null, monitoring is off and the call is not forced,
or the model is not initialized; otherwise isAnalyzing is set, a screenshot
is taken, and on a null screenshot the error is set and the flag is released
(the finally block); on success the backend call is issued (pending grows)
with isAnalyzing held. -/
def captureAndAnalyzeEntry (s : ComponentState) (force : Bool) (shotOk : Bool) :
    ComponentState :=
  if s.isAnalyzing || !s.webcamPresent || (!s.isMonitoring && !force)
      || !s.isModelInitialized then
    s
  else if !shotOk then
    { s with errorMsg := some .captureError }
  else
    { s with isAnalyzing := true, pending := s.pending + 1 }

/-- Outcome of one awaited analyze_pose_data invocation: a parsed result, a
throw from the analysis call or JSON parse, or a throw from the database
insert after a non-skipped result was already published. -/
inductive AnalyzeOutcome where
  | ok (r : PostureAnalysis)
  | errAnalyze
  | errDb (r : PostureAnalysis)
deriving DecidableEq, Repr

/-- The continuation of captureAndAnalyze after the await resolves: a
non-skipped result is published via setAnalysisResult and appended to
posture_log, a skipped result only clears the error, a throw sets the error;
the finally block releases isAnalyzing in every case.  A resume with no
invocation outstanding does nothing. -/
def captureAndAnalyzeResume (s : ComponentState) (o : AnalyzeOutcome) (now : Nat) :
    ComponentState :=
  if s.pending = 0 then s
  else
    match o with
    | .ok r =>
      if r.skip then
        { s with errorMsg := none, isAnalyzing := false, pending := s.pending - 1 }
      else
        { s with analysisResult := some r,
                 postureLog := s.postureLog ++ [logEntryOf r now],
                 errorMsg := none, isAnalyzing := false, pending := s.pending - 1 }
    | .errAnalyze =>
        { s with errorMsg := some .analysisError, isAnalyzing := false,
                 pending := s.pending - 1 }
    | .errDb r =>
      if r.skip then
        { s with errorMsg := none, isAnalyzing := false, pending := s.pending - 1 }
      else
        { s with analysisResult := some r,
                 errorMsg := some .analysisError, isAnalyzing := false,
                 pending := s.pending - 1 }

/-- Events of the component: successful model initialization, webcam ready,
the start and stop handlers, a timer tick entering captureAndAnalyze, and the
resumption of an awaited analysis. -/
inductive Event where
  | modelInitOk
  | webcamReady
  | startMon
  | stopMon
  | tick (force : Bool) (shotOk : Bool)
  | resume (o : AnalyzeOutcome) (now : Nat)
deriving DecidableEq, Repr

/-- One atomic step of the component.  startMonitoring only turns monitoring
on when the model is initialized (otherwise it triggers initialization and
returns); stopMonitoring turns it off. -/
def step (s : ComponentState) : Event → ComponentState
  | .modelInitOk => { s with isModelInitialized := true }
  | .webcamReady => { s with webcamPresent := true }
  | .startMon => if s.isModelInitialized then { s with isMonitoring := true } else s
  | .stopMon => { s with isMonitoring := false }
  | .tick f shot => captureAndAnalyzeEntry s f shot
  | .resume o now => captureAndAnalyzeResume s o now

/-- Running a sequence of events from a state. -/
def run (s : ComponentState) (es : List Event) : ComponentState :=
  es.foldl step s

/-- The concurrency invariant: at most one analysis invocation is awaited,
and isAnalyzing holds exactly while one is. -/
def SingleFlight (s : ComponentState) : Prop :=
  s.pending ≤ 1 ∧ (s.isAnalyzing = true ↔ s.pending = 1)

instance (s : ComponentState) : Decidable (SingleFlight s) := by
  unfold SingleFlight; infer_instance

/-- Modelled from the spec: DetectionHistory (section 3) is a fixed-capacity
ring buffer of capacity 3 kept by the Rust backend (not under src); the
oldest element is evicted on overflow. -/
def pushRing (hist : List PostureAnalysis) (r : PostureAnalysis) :
    List PostureAnalysis :=
  if hist.length < 3 then hist ++ [r] else hist.drop 1 ++ [r]

/-- Modelled from the spec: a result feeds Detection History only when it is
not skipped (section 4.1 step 4; the same gate appears in captureAndAnalyze
in the source). -/
def stepHistory (hist : List PostureAnalysis) (r : PostureAnalysis) :
    List PostureAnalysis :=
  if r.skip then hist else pushRing hist r

/-- Detection History after processing a sequence of results from empty. -/
def historyOf (rs : List PostureAnalysis) : List PostureAnalysis :=
  rs.foldl stepHistory []

/-- Number of bad entries in a history. -/
def badCount (hist : List PostureAnalysis) : Nat :=
  (hist.filter (fun r => r.isBad)).length

/-- Message keys chosen by the Alert Dispatcher: combined when both flags are
set, otherwise the single matching key (spec section 4.4). -/
inductive MessageKey where
  | combined
  | turtleNeck
  | shoulderMisalignment
deriving DecidableEq, Repr

/-- Message key of a triggering result; none when the result is not bad. -/
def messageKeyOf (r : PostureAnalysis) : Option MessageKey :=
  if r.turtle_neck && r.shoulder_misalignment then some .combined
  else if r.turtle_neck then some .turtleNeck
  else if r.shoulder_misalignment then some .shoulderMisalignment
  else none

/-- Modelled from the spec: the Alert Dispatcher (section 4.4), which lives in
the Rust backend (not under src).  A non-skipped result is inserted into the
ring; an alert is emitted iff the bad count of the updated history reaches the
threshold and the newly inserted result is itself bad. -/
def dispatch (threshold : Nat) (hist : List PostureAnalysis)
    (r : PostureAnalysis) : List PostureAnalysis × Option MessageKey :=
  let h := pushRing hist r
  if threshold ≤ badCount h ∧ r.isBad = true then (h, messageKeyOf r)
  else (h, none)

/-- Modelled from the spec: the Adaptive Interval Controller (section 4.3),
which lives in the Rust backend scheduler (not under src; the frontend only
submits the configured value via set_monitoring_interval).  The next delay in
seconds is the configured base interval: minutes-scale when power saving is
on (never shortened), seconds-scale otherwise; the last score is an unused
extension point. -/
def nextDelaySecs (lastScore : Option Nat) (powerSaving : Bool)
    (baseInterval : Nat) : Nat :=
  if powerSaving then baseInterval * 60 else baseInterval

/-- The settings record submitted by DetectionSettings in SettingsPage.tsx
via set_detection_settings. -/
structure DetectionConfig where
  frequency : Nat
  turtleSensitivity : Nat
  shoulderSensitivity : Nat
deriving DecidableEq, Repr

/-- Settings errors surfaced synchronously by the core (spec section 7). -/
inductive SettingsError where
  | invalidSettings
deriving DecidableEq, Repr

/-- Modelled from the spec: the core settings validation for
set_detection_settings (sections 4.3 and 7), which lives in the Rust backend
(not under src).  A frequency outside 1..3 is rejected; while power saving is
on, only frequency 1 is accepted; rejection returns invalidSettings and
leaves the stored settings unchanged. -/
def setDetectionSettingsCore (powerSaving : Bool) (current req : DetectionConfig) :
    DetectionConfig × Option SettingsError :=
  if req.frequency < 1 ∨ 3 < req.frequency then
    (current, some .invalidSettings)
  else if powerSaving = true ∧ req.frequency ≠ 1 then
    (current, some .invalidSettings)
  else
    (req, none)

/-- The frequency value the settings page actually submits to the backend:
DetectionSettings coerces it to 1 while battery saving mode is on
(SettingsPage.tsx, the set_detection_settings invoke). -/
def submittedFrequency (batterySavingMode : Bool) (frequency : Nat) : Nat :=
  if batterySavingMode then 1 else frequency

/-- The timer scheduled by startMonitoring in WebcamCapture.tsx once the
model is initialized: a forced captureAndAnalyze after a fixed 100 ms
timeout.  The configured monitoring interval is taken as an argument to state
its non-influence; the source closure does not read it. -/
def startMonitoringSchedule (intervalSetting : Nat) (s : ComponentState) :
    Option (Nat × Bool) :=
  if s.isModelInitialized then some (100, true) else none

/-- The period of the monitoring useEffect in WebcamCapture.tsx: a fixed
3000 ms setInterval while monitoring is on and the model is initialized. -/
def monitoringTickPeriodMs (isMonitoring isModelInitialized : Bool) :
    Option Nat :=
  if isMonitoring && isModelInitialized then some 3000 else none

/-- A bad result (turtle neck detected), not skipped. -/
def demoBad : PostureAnalysis := ⟨true, false, 40, [], false⟩

/-- A good result, not skipped. -/
def demoGood : PostureAnalysis := ⟨false, false, 90, [], false⟩

/-- A skipped result, as suppressed by the backend rate limiter. -/
def demoSkip : PostureAnalysis := ⟨false, false, 0, [], true⟩

/-- A component state with webcam, model and monitoring all up. -/
def readyState : ComponentState :=
  { initState with isModelInitialized := true, webcamPresent := true,
                   isMonitoring := true }

/-- A ready state with one analysis invocation in flight. -/
def analyzingState : ComponentState :=
  { readyState with isAnalyzing := true, pending := 1 }

theorem singleFlight_step (s : ComponentState) (e : Event)
    (h : SingleFlight s) : SingleFlight (step s e) := by
  obtain ⟨h1, h2⟩ := h
  cases e with
  | modelInitOk => exact ⟨h1, h2⟩
  | webcamReady => exact ⟨h1, h2⟩
  | startMon =>
      simp only [step]; split <;> exact ⟨h1, h2⟩
  | stopMon => exact ⟨h1, h2⟩
  | tick f shot =>
      simp only [step, captureAndAnalyzeEntry]
      split
      · exact ⟨h1, h2⟩
      · rename_i hguard
        have hA : s.isAnalyzing = false := by
          cases hA : s.isAnalyzing
          · rfl
          · simp [hA] at hguard
        have hp : s.pending = 0 := by
          rcases Nat.eq_or_lt_of_le h1 with h | h
          · rw [h] at h2
            rw [h2.mpr rfl] at hA
            cases hA
          · omega
        split
        · exact ⟨h1, h2⟩
        · constructor <;> simp [hp]
  | resume o now =>
      simp only [step, captureAndAnalyzeResume]
      split
      · exact ⟨h1, h2⟩
      · rename_i hp0
        have hp1 : s.pending = 1 := by omega
        split <;> (try split) <;> constructor <;> simp [hp1]

theorem singleFlight_run (s : ComponentState) (es : List Event)
    (h : SingleFlight s) : SingleFlight (run s es) := by
  induction es generalizing s with
  | nil => exact h
  | cons e es ih => exact ih (step s e) (singleFlight_step s e h)

theorem pushRing_length (hist : List PostureAnalysis) (r : PostureAnalysis)
    (h : hist.length ≤ 3) : (pushRing hist r).length ≤ 3 := by
  unfold pushRing
  split <;> simp [List.length_append, List.length_drop] <;> omega

theorem pushRing_mem (hist : List PostureAnalysis) (r x : PostureAnalysis)
    (hx : x ∈ pushRing hist r) : x ∈ hist ∨ x = r := by
  unfold pushRing at hx
  split at hx <;> rcases List.mem_append.mp hx with h | h
  · exact Or.inl h
  · exact Or.inr (List.mem_singleton.mp h)
  · exact Or.inl (List.mem_of_mem_drop h)
  · exact Or.inr (List.mem_singleton.mp h)

theorem pushRing_suffix (hist : List PostureAnalysis) (r : PostureAnalysis)
    (l : List PostureAnalysis) (h : hist <:+ l) :
    pushRing hist r <:+ l ++ [r] := by
  unfold pushRing
  split
  · obtain ⟨t, ht⟩ := h
    exact ⟨t, by rw [← List.append_assoc, ht]⟩
  · obtain ⟨t, ht⟩ := (List.drop_suffix 1 hist).trans h
    exact ⟨t, by rw [← List.append_assoc, ht]⟩

theorem stepHistory_fold_inv (rs : List PostureAnalysis)
    (hist l : List PostureAnalysis) (h1 : hist.length ≤ 3)
    (h2 : ∀ r ∈ hist, r.skip = false) (h3 : hist <:+ l) :
    (rs.foldl stepHistory hist).length ≤ 3 ∧
    (∀ r ∈ rs.foldl stepHistory hist, r.skip = false) ∧
    rs.foldl stepHistory hist <:+ l ++ rs.filter (fun r => !r.skip) := by
  induction rs generalizing hist l with
  | nil => simpa using ⟨h1, h2, h3⟩
  | cons r rs ih =>
    by_cases hs : r.skip = true
    · have hstep : stepHistory hist r = hist := by simp [stepHistory, hs]
      rw [List.foldl_cons, hstep]
      have := ih hist l h1 h2 h3
      simpa [List.filter_cons, hs] using this
    · have hstep : stepHistory hist r = pushRing hist r := by
        simp [stepHistory, hs]
      rw [List.foldl_cons, hstep]
      have h2n : ∀ x ∈ pushRing hist r, x.skip = false := by
        intro x hx
        rcases pushRing_mem hist r x hx with hin | hin
        · exact h2 x hin
        · rw [hin]; simpa using hs
      have := ih (pushRing hist r) (l ++ [r]) (pushRing_length hist r h1) h2n
        (pushRing_suffix hist r l h3)
      simpa [List.filter_cons, hs, List.append_assoc] using this

theorem messageKeyOf_isSome (r : PostureAnalysis) :
    (messageKeyOf r).isSome = r.isBad := by
  unfold messageKeyOf PostureAnalysis.isBad
  cases ht : r.turtle_neck <;> cases hs : r.shoulder_misalignment <;> simp

/-- C1: at most one analysis cycle is in flight at any time; a tick that
fires while the isAnalyzing guard is true is skipped entirely (the state is
left unchanged, nothing is queued), so no two capture-and-analyze
invocations overlap. -/
theorem monitoring_single_flight :
    (∀ (s : ComponentState) (es : List Event), SingleFlight s →
      (run s es).pending ≤ 1) ∧
    (∀ (s : ComponentState) (force shotOk : Bool), s.isAnalyzing = true →
      captureAndAnalyzeEntry s force shotOk = s) := by
  constructor
  · intro s es h
    exact (singleFlight_run s es h).1
  · intro s force shotOk h
    unfold captureAndAnalyzeEntry
    simp [h]

/-- C1 witness: a concrete run that attempts a second tick while the first
is in flight keeps a single invocation outstanding, and a tick on a state
with the guard held is a no-op. -/
theorem monitoring_single_flight_witness :
    (run initState [Event.modelInitOk, Event.webcamReady, Event.startMon,
      Event.tick true true, Event.tick false true]).pending ≤ 1 ∧
    captureAndAnalyzeEntry analyzingState false true = analyzingState :=
  ⟨monitoring_single_flight.1 initState
      [Event.modelInitOk, Event.webcamReady, Event.startMon,
       Event.tick true true, Event.tick false true] (by decide),
   monitoring_single_flight.2 analyzingState false true (by decide)⟩

/-- C2: Detection History never exceeds length 3, preserves insertion order
(it is a suffix of the non-skipped results in arrival order), and never
contains a skipped result; moreover a skipped result is not inserted into
the posture log and not forwarded to the UI result by captureAndAnalyze. -/
theorem detection_history_invariant :
    (∀ rs : List PostureAnalysis,
      (historyOf rs).length ≤ 3 ∧
      (∀ r ∈ historyOf rs, r.skip = false) ∧
      historyOf rs <:+ rs.filter (fun r => !r.skip)) ∧
    (∀ (s : ComponentState) (r : PostureAnalysis) (now : Nat),
      r.skip = true →
      (captureAndAnalyzeResume s (.ok r) now).postureLog = s.postureLog ∧
      (captureAndAnalyzeResume s (.ok r) now).analysisResult
        = s.analysisResult) := by
  constructor
  · intro rs
    have := stepHistory_fold_inv rs [] [] (by simp) (by simp) List.nil_suffix
    simpa [historyOf] using this
  · intro s r now hskip
    unfold captureAndAnalyzeResume
    split
    · exact ⟨rfl, rfl⟩
    · simp [hskip]

/-- C2 witness: a concrete result sequence containing a skipped result, and
a concrete resume of a skipped result that leaves log and UI untouched. -/
theorem detection_history_invariant_witness :
    ((historyOf [demoBad, demoSkip, demoGood, demoBad, demoGood]).length ≤ 3 ∧
      (∀ r ∈ historyOf [demoBad, demoSkip, demoGood, demoBad, demoGood],
        r.skip = false)) ∧
    (captureAndAnalyzeResume analyzingState (.ok demoSkip) 7).postureLog
      = analyzingState.postureLog :=
  ⟨⟨(detection_history_invariant.1
      [demoBad, demoSkip, demoGood, demoBad, demoGood]).1,
    (detection_history_invariant.1
      [demoBad, demoSkip, demoGood, demoBad, demoGood]).2.1⟩,
   (detection_history_invariant.2 analyzingState demoSkip 7 (by decide)).1⟩

/-- C3: for a non-skipped result processed by the Alert Dispatcher with
threshold t between 1 and 3, an alert is emitted iff the bad count of the
history after the insertion reaches t and the inserted result is itself bad;
with history bad,bad,good and threshold 2, a new bad result yields history
bad,good,bad and fires, while a new good result does not fire. -/
theorem alert_dispatcher_rule :
    (∀ (t : Nat) (hist : List PostureAnalysis) (r : PostureAnalysis),
      1 ≤ t → t ≤ 3 →
      ((dispatch t hist r).2.isSome = true ↔
        (t ≤ badCount (pushRing hist r) ∧ r.isBad = true))) ∧
    pushRing [demoBad, demoBad, demoGood] demoBad
      = [demoBad, demoGood, demoBad] ∧
    (dispatch 2 [demoBad, demoBad, demoGood] demoBad).2
      = some .turtleNeck ∧
    (dispatch 2 [demoBad, demoBad, demoGood] demoGood).2 = none := by
  refine ⟨?_, by decide, by decide, by decide⟩
  intro t hist r ht1 ht3
  unfold dispatch
  by_cases hc : t ≤ badCount (pushRing hist r) ∧ r.isBad = true
  · simp [hc, messageKeyOf_isSome, hc.2]
  · simp [hc]

/-- C3 witness: the iff instantiated at the concrete example from the spec. -/
theorem alert_dispatcher_rule_witness :
    (dispatch 2 [demoBad, demoBad, demoGood] demoBad).2.isSome = true ↔
      (2 ≤ badCount (pushRing [demoBad, demoBad, demoGood] demoBad) ∧
        demoBad.isBad = true) :=
  alert_dispatcher_rule.1 2 [demoBad, demoBad, demoGood] demoBad
    (by decide) (by decide)

/-- C4: while power saving is on, the core accepts only a notification
threshold of 1: any other requested frequency is rejected with
invalidSettings and the stored settings are unchanged, while frequency 1 is
accepted and stored. -/
theorem power_saving_threshold_rule :
    ∀ (current req : DetectionConfig),
      (req.frequency ≠ 1 →
        setDetectionSettingsCore true current req
          = (current, some .invalidSettings)) ∧
      (req.frequency = 1 →
        setDetectionSettingsCore true current req = (req, none)) := by
  intro current req
  constructor
  · intro h
    unfold setDetectionSettingsCore
    split
    · rfl
    · split
      · rfl
      · rename_i hr hp
        exact absurd ⟨rfl, h⟩ hp
  · intro h
    unfold setDetectionSettingsCore
    rw [h]
    norm_num

/-- C4 witness: with power saving on, frequency 2 is rejected leaving the
stored settings unchanged, and frequency 1 is accepted. -/
theorem power_saving_threshold_rule_witness :
    setDetectionSettingsCore true ⟨2, 2, 2⟩ ⟨2, 2, 2⟩
      = (⟨2, 2, 2⟩, some .invalidSettings) ∧
    setDetectionSettingsCore true ⟨2, 2, 2⟩ ⟨1, 2, 2⟩ = (⟨1, 2, 2⟩, none) :=
  ⟨(power_saving_threshold_rule ⟨2, 2, 2⟩ ⟨2, 2, 2⟩).1 (by decide),
   (power_saving_threshold_rule ⟨2, 2, 2⟩ ⟨1, 2, 2⟩).2 rfl⟩

/-- C5: with power saving off, the Adaptive Interval Controller returns the
configured base interval unchanged for every base interval in the 3 to 15
second range, whatever the last score was. -/
theorem adaptive_interval_identity :
    ∀ (lastScore : Option Nat) (base : Nat), 3 ≤ base → base ≤ 15 →
      nextDelaySecs lastScore false base = base := by
  intro lastScore base h1 h2
  simp [nextDelaySecs]

/-- C5 witness: a configured 5 second interval is returned unchanged. -/
theorem adaptive_interval_identity_witness :
    nextDelaySecs (some 50) false 5 = 5 :=
  adaptive_interval_identity (some 50) 5 (by decide) (by decide)

/-- C6: the delay computed by the Adaptive Interval Controller is
independent of the last score: two arbitrary scores with the same power
saving flag and base interval give equal delays. -/
theorem adaptive_interval_score_independent :
    ∀ (s1 s2 : Option Nat) (ps : Bool) (base : Nat),
      nextDelaySecs s1 ps base = nextDelaySecs s2 ps base := by
  intro s1 s2 ps base
  rfl

/-- C7 counterexample: a completed cycle whose result is skipped is NOT
published to the UI observer: after a run that starts a cycle and resumes
it with a skipped result, the UI result is still none, refuting the claim
that skipped results reach the UI observer channel. -/
theorem skipped_not_published_counterexample :
    demoSkip.skip = true ∧
    (run initState [Event.modelInitOk, Event.webcamReady, Event.startMon,
      Event.tick true true, Event.resume (.ok demoSkip) 5]).analysisResult
      = none := by decide

/-- C7 amended: a completed analysis result is published to the UI observer
(setAnalysisResult) iff it is not skipped; skipped results are withheld from
the UI as well as from history and the log. -/
theorem ui_publication_iff_not_skipped :
    ∀ (s : ComponentState) (r : PostureAnalysis) (now : Nat),
      s.pending ≠ 0 →
      (captureAndAnalyzeResume s (.ok r) now).analysisResult
        = (if r.skip then s.analysisResult else some r) := by
  intro s r now hp
  unfold captureAndAnalyzeResume
  simp only [hp, if_neg hp]
  by_cases hs : r.skip = true <;> simp [hs]

/-- C7 witness: a non-skipped result is published to the UI observer. -/
theorem ui_publication_iff_not_skipped_witness :
    (captureAndAnalyzeResume analyzingState (.ok demoBad) 3).analysisResult
      = (if demoBad.skip then analyzingState.analysisResult
         else some demoBad) :=
  ui_publication_iff_not_skipped analyzingState demoBad 3 (by decide)

/-- C8 counterexample: stopping monitoring while a cycle is in flight does
NOT discard the eventual result: after model init, webcam ready, start, a
tick that launches a cycle, a stop, and the resumption with a non-skipped
result, monitoring is off yet the result has been inserted into the posture
log and published, refuting the claim that it is not forwarded. -/
theorem stop_inflight_still_delivered_counterexample :
    (run initState [Event.modelInitOk, Event.webcamReady, Event.startMon,
      Event.tick true true, Event.stopMon,
      Event.resume (.ok demoBad) 42]).isMonitoring = false ∧
    (run initState [Event.modelInitOk, Event.webcamReady, Event.startMon,
      Event.tick true true, Event.stopMon,
      Event.resume (.ok demoBad) 42]).postureLog = [logEntryOf demoBad 42] ∧
    (run initState [Event.modelInitOk, Event.webcamReady, Event.startMon,
      Event.tick true true, Event.stopMon,
      Event.resume (.ok demoBad) 42]).analysisResult = some demoBad := by
  decide

/-- C8 amended: stopping monitoring while a cycle is in flight does not
cancel delivery: when the in-flight cycle completes with a non-skipped
result it is still inserted into the posture log and published to the UI;
the entry guard only prevents cycles that start after the stop. -/
theorem stop_does_not_cancel_inflight_delivery :
    ∀ (s : ComponentState) (r : PostureAnalysis) (now : Nat),
      s.pending ≠ 0 → r.skip = false →
      (run s [Event.stopMon, Event.resume (.ok r) now]).postureLog
        = s.postureLog ++ [logEntryOf r now] ∧
      (run s [Event.stopMon, Event.resume (.ok r) now]).analysisResult
        = some r := by
  intro s r now hp hr
  simp only [run, List.foldl_cons, List.foldl_nil, step,
    captureAndAnalyzeResume]
  simp [hp, hr]

/-- C8 witness: the amended statement at a concrete in-flight state. -/
theorem stop_does_not_cancel_inflight_delivery_witness :
    (run analyzingState [Event.stopMon, Event.resume (.ok demoBad) 42]
      ).postureLog = analyzingState.postureLog ++ [logEntryOf demoBad 42] ∧
    (run analyzingState [Event.stopMon, Event.resume (.ok demoBad) 42]
      ).analysisResult = some demoBad :=
  stop_does_not_cancel_inflight_delivery analyzingState demoBad 42
    (by decide) (by decide)

/-- C9 counterexample: re-entering monitoring does not run the fresh cycle
with zero initial delay: startMonitoring schedules the forced cycle via a
100 ms timeout, refuting the no-initial-delay claim at a concrete state. -/
theorem restart_initial_delay_counterexample :
    startMonitoringSchedule 7 { initState with isModelInitialized := true }
      = some (100, true) ∧ (100 : Nat) ≠ 0 := by decide

/-- C9 amended: re-entering monitoring schedules a fresh forced cycle after
a fixed 100 ms timeout, independent of the configured monitoring interval;
the configured interval only governs subsequent periodic cycles. -/
theorem restart_schedules_fixed_forced_cycle :
    (∀ (i1 i2 : Nat) (s : ComponentState),
      startMonitoringSchedule i1 s = startMonitoringSchedule i2 s) ∧
    (∀ (i : Nat) (s : ComponentState), s.isModelInitialized = true →
      startMonitoringSchedule i s = some (100, true)) := by
  constructor
  · intro i1 i2 s
    rfl
  · intro i s h
    simp [startMonitoringSchedule, h]

/-- C9 witness: the schedule at two different configured intervals on a
concrete initialized state. -/
theorem restart_schedules_fixed_forced_cycle_witness :
    startMonitoringSchedule 3 readyState = startMonitoringSchedule 15 readyState ∧
    startMonitoringSchedule 3 readyState = some (100, true) :=
  ⟨restart_schedules_fixed_forced_cycle.1 3 15 readyState,
   restart_schedules_fixed_forced_cycle.2 3 readyState (by decide)⟩

/-- One whole invocation of captureAndAnalyze: the synchronous entry, and,
when the entry actually issued a backend analysis call, its continuation
with the given outcome. -/
def runInvocation (s : ComponentState) (force shotOk : Bool)
    (o : AnalyzeOutcome) (now : Nat) : ComponentState :=
  if s.pending < (captureAndAnalyzeEntry s force shotOk).pending then
    captureAndAnalyzeResume (captureAndAnalyzeEntry s force shotOk) o now
  else
    captureAndAnalyzeEntry s force shotOk

theorem resume_releases_guard (s : ComponentState) (o : AnalyzeOutcome)
    (now : Nat) (hp : s.pending ≠ 0) :
    (captureAndAnalyzeResume s o now).isAnalyzing = false := by
  unfold captureAndAnalyzeResume
  rw [if_neg hp]
  split <;> (try split) <;> rfl

/-- C10: every invocation of captureAndAnalyze releases the isAnalyzing
guard on all exit paths: whether the guard rejects the tick, the screenshot
is null, the analysis succeeds (skipped or not), or the analysis or the
database insert throws, isAnalyzing is false once the invocation has
completed, so one failing cycle never blocks subsequent cycles. -/
theorem guard_released_on_all_paths :
    ∀ (s : ComponentState) (force shotOk : Bool) (o : AnalyzeOutcome)
      (now : Nat), s.isAnalyzing = false →
      (runInvocation s force shotOk o now).isAnalyzing = false := by
  intro s force shotOk o now h
  unfold runInvocation
  by_cases hg : (s.isAnalyzing || !s.webcamPresent
      || (!s.isMonitoring && !force) || !s.isModelInitialized) = true
  · have hentry : captureAndAnalyzeEntry s force shotOk = s := by
      unfold captureAndAnalyzeEntry
      rw [if_pos hg]
    rw [hentry, if_neg (lt_irrefl _)]
    exact h
  · by_cases hshot : shotOk = true
    · have hentry : captureAndAnalyzeEntry s force shotOk
          = { s with isAnalyzing := true, pending := s.pending + 1 } := by
        simp [captureAndAnalyzeEntry, hg, hshot]
      rw [hentry]
      rw [if_pos (by simp)]
      exact resume_releases_guard _ o now (by simp)
    · have hentry : captureAndAnalyzeEntry s force shotOk
          = { s with errorMsg := some ErrKey.captureError } := by
        simp [captureAndAnalyzeEntry, hg, hshot]
      rw [hentry]
      rw [if_neg (by simp)]
      exact h

/-- C10 witness: a concrete invocation whose analysis call throws still
ends with the guard released. -/
theorem guard_released_on_all_paths_witness :
    (runInvocation readyState true true .errAnalyze 0).isAnalyzing = false :=
  guard_released_on_all_paths readyState true true .errAnalyze 0 (by decide)
